import Mathlib

/-!
# Verification of the reservation-agent workflow core

A shallow embedding of the conversation workflow core of the repository:
the shared enumerations (`shared/enums.py`), the memory model
(`memory/models.py`), the transition reducer (`memory/state_manager.py`)
and the coordinator routing function (`engine/coordinator.py`).

Modelling conventions:
* Calendar dates (`datetime.date`) and times of day (`datetime.time`) are
  abstracted to numeric codes (`Nat`); the core never inspects their
  structure, only presence and equality.
* Python `Optional[str]` truthiness (`if x:` is false for both `None` and
  the empty string) is modelled by `optStrTruthy`.
* Pydantic field validation (`party_size` bounded by `ge=1, le=16` on
  `ReservationDetails`) is modelled by a fallible constructor returning
  `Except`; handlers receive already-validated records, as in the source.
* The reducer's in-place mutation of a deep copy is modelled by pure
  record updates.
* The on-disk persistence collaborator (`save_reservation_snapshot`) is
  external to the core; the save-reservation handler takes its outcome
  (path or raised error) as an explicit `Except String String` argument.
-/

/-- `shared/enums.py` `WorkflowStage` (the Python `END` member is named
`endStage` because `end` is reserved in Lean). -/
inductive WorkflowStage where
  | intro
  | sharePreferences
  | awaitAvailability
  | reviewAlternatives
  | provideContact
  | menuDiscussion
  | awaitConfirmation
  | saveData
  | wrapUp
  | endStage
deriving DecidableEq, Repr

/-- `shared/enums.py` `AvailabilityStatus`. -/
inductive AvailabilityStatus where
  | unknown
  | waitingOnStaff
  | slotAccepted
  | alternativesOffered
  | declined
deriving DecidableEq, Repr

/-- `shared/enums.py` `ConfirmationStatus`. -/
inductive ConfirmationStatus where
  | pending
  | confirmedByStaff
  | needsClarification
deriving DecidableEq, Repr

/-- `shared/enums.py` `SkillName`. -/
inductive SkillName where
  | greeting
  | availability
  | detailsCollection
  | menuDiscussion
  | confirmation
  | alternative
  | errorRecovery
  | saveReservation
deriving DecidableEq, Repr

/-- `shared/enums.py` `DiscussionTopic` (`NONE` is named `noneTopic`). -/
inductive DiscussionTopic where
  | greeting
  | confirmingAvailability
  | confirmingDate
  | confirmingTime
  | confirmingPartySize
  | confirmingSpecialRequests
  | confirmingContactDetails
  | confirmingOccasion
  | menuDiscussion
  | confirmation
  | closing
  | errorRecovery
  | noneTopic
deriving DecidableEq, Repr

/-- Python truthiness of an `Optional[str]`: `None` and `""` are falsy. -/
def optStrTruthy : Option String → Bool
  | none => false
  | some s => !s.isEmpty

/-- Python `needle in haystack`: substring containment on strings. -/
def containsSubstring (haystack needle : String) : Bool :=
  haystack.toList.tails.any (fun t => needle.toList.isPrefixOf t)

/-- Python `str.lower()`, character by character (the keywords matched in
this codebase are plain ASCII). -/
def lowerStr (s : String) : String :=
  ⟨s.data.map Char.toLower⟩

/-- Python `str.strip()`: drop whitespace from both ends. -/
def stripStr (s : String) : String :=
  ⟨((s.data.dropWhile Char.isWhitespace).reverse.dropWhile Char.isWhitespace).reverse⟩

/-- `memory/models.py` `ConversationTurn`. -/
structure ConversationTurn where
  speaker : String
  message : String
deriving DecidableEq, Repr

/-- `memory/models.py` `ReservationDetails` (field values; the pydantic
`ge=1, le=16` bound on `party_size` is enforced by the validating
constructor `ReservationDetails.validated` below, mirroring validation at
model construction time). -/
structure ReservationDetails where
  date : Option Nat := none
  time : Option Nat := none
  party_size : Option Int := none
  occasion : Option String := none
  special_requests : Option String := none
  contact_name : Option String := none
  contact_phone : Option String := none
deriving DecidableEq, Repr

/-- Pydantic validation of `ReservationDetails`: constructing the model
raises a `ValidationError` when `party_size` is outside `[1, 16]`. -/
def ReservationDetails.validated (r : ReservationDetails) :
    Except String ReservationDetails :=
  match r.party_size with
  | none => Except.ok r
  | some n =>
      if 1 ≤ n ∧ n ≤ 16 then Except.ok r
      else Except.error "party_size out of range 1..16"

/-- `memory/models.py` `MenuPreferences`. -/
structure MenuPreferences where
  requested : Bool := false
  highlights : List String := []
  dietary_notes : Option String := none
deriving DecidableEq, Repr

/-- `memory/models.py` `AlternativeOption`. -/
structure AlternativeOption where
  description : String
  notes : Option String := none
  accepted : Bool := false
deriving DecidableEq, Repr

/-- `memory/models.py` `CoreMemory` (static persona facts, never read by
the reducer or coordinator). -/
structure CoreMemory where
  agent_name : String := "Sarah"
  languages : List String := ["en"]
deriving DecidableEq, Repr

/-- `memory/models.py` `DesiredReservation`. `date` defaults to the code
for "tomorrow"; `time` defaults to the code for 19:00 (minutes past
midnight). `party_size` is an unconstrained `int` in the source. -/
structure DesiredReservation where
  date : Nat := 1
  time : Nat := 19 * 60
  party_size : Int := 2
  occasion : Option String := some ""
  special_requests : Option String := some ""
deriving DecidableEq, Repr

/-- `memory/models.py` `SemanticMemory`. -/
structure SemanticMemory where
  restaurant_name : String := ""
  guest_name : String := ""
  guest_phone : String := ""
  celebration_reason : String := ""
  favorite_dishes : List String := []
  dietary_notes : Option String := some ""
  talking_points : List String := []
  desired_reservation : DesiredReservation := {}
  fallback_slots : List String := []
deriving DecidableEq, Repr

/-- `memory/models.py` `EpisodicMemory`. -/
structure EpisodicMemory where
  events : List String := []
deriving DecidableEq, Repr

/-- `memory/models.py` `ConfirmedFields`. -/
structure ConfirmedFields where
  date : Bool := false
  time : Bool := false
  party_size : Bool := false
  occasion : Bool := false
  special_requests : Bool := false
  contact_name : Bool := false
  contact_phone : Bool := false
deriving DecidableEq, Repr

/-- `memory/models.py` `ConfirmedFields.all_required_confirmed`:
the conjunction of all 7 tracked booleans. -/
def ConfirmedFields.all_required_confirmed (cf : ConfirmedFields) : Bool :=
  cf.date && cf.time && cf.party_size && cf.occasion &&
    cf.special_requests && cf.contact_name && cf.contact_phone

/-- Python `getattr(confirmed_fields, name)` for the 7 tracked field
names (only ever called with names from `CONTACT_FIELD_PRIORITY`). -/
def ConfirmedFields.get (cf : ConfirmedFields) : String → Bool
  | "date" => cf.date
  | "time" => cf.time
  | "party_size" => cf.party_size
  | "occasion" => cf.occasion
  | "special_requests" => cf.special_requests
  | "contact_name" => cf.contact_name
  | "contact_phone" => cf.contact_phone
  | _ => false

/-- `memory/models.py` `WorkflowMemory`. -/
structure WorkflowMemory where
  stage : WorkflowStage := .intro
  availability_status : AvailabilityStatus := .unknown
  confirmation_status : ConfirmationStatus := .pending
  confirmed_fields : ConfirmedFields := {}
  missing_explicit_confirmations : List String := []
  blocking_issue : Option String := none
  selected_slot_note : Option String := none
  saved_file_path : Option String := none
  current_topic : DiscussionTopic := .noneTopic
deriving DecidableEq, Repr

/-- `memory/models.py` `WorkingMemory`. -/
structure WorkingMemory where
  turns : List ConversationTurn := []
  last_user_message : Option String := none
  last_ai_message : Option String := none
  goal_reservation : ReservationDetails := {}
  confirmed_reservation : ReservationDetails := {}
  menu_preferences : MenuPreferences := {}
  proposed_alternatives : List AlternativeOption := []
  pending_questions : List String := []
deriving DecidableEq, Repr

/-- `memory/models.py` `GlobalMemory`. -/
structure GlobalMemory where
  core : CoreMemory := {}
  semantic : SemanticMemory := {}
  episodic : EpisodicMemory := {}
  workflow : WorkflowMemory := {}
  working : WorkingMemory := {}
deriving DecidableEq, Repr

/-- `memory/models.py` `GlobalMemory.append_turn`. -/
def GlobalMemory.append_turn (s : GlobalMemory) (speaker message : String) :
    GlobalMemory :=
  let wk := { s.working with
    turns := s.working.turns ++
      [({ speaker := speaker, message := message } : ConversationTurn)] }
  let wk :=
    if speaker = "user" then { wk with last_user_message := some message }
    else { wk with last_ai_message := some message }
  { s with working := wk }

/-! Structured skill outputs, from `skills/outputs.py`. Every output
carries the mandatory `ai_response` reply text. -/

/-- `skills/outputs.py` `GreetingSkillOutput`. -/
structure GreetingSkillOutput where
  ai_response : String
deriving DecidableEq, Repr

/-- `skills/outputs.py` `AvailabilitySkillOutput`. -/
structure AvailabilitySkillOutput where
  ai_response : String
  availability_status : AvailabilityStatus := .unknown
  suggested_alternatives : List String := []
  selected_slot_note : Option String := none
  pending_questions : List String := []
  special_request_rejected : Bool := false
deriving DecidableEq, Repr

/-- `skills/outputs.py` `DetailsCollectionOutput`. -/
structure DetailsCollectionOutput where
  ai_response : String
  reservation_details : ReservationDetails := {}
  needs_menu_dialog : Bool := false
deriving DecidableEq, Repr

/-- `skills/outputs.py` `MenuDiscussionOutput`. -/
structure MenuDiscussionOutput where
  ai_response : String
  menu_preferences : MenuPreferences := {}
  next_stage : WorkflowStage := .awaitConfirmation
deriving DecidableEq, Repr

/-- `skills/outputs.py` `ConfirmationSkillOutput`. -/
structure ConfirmationSkillOutput where
  ai_response : String
  confirmation_status : ConfirmationStatus := .pending
  booking_reference : Option String := none
  error_message : Option String := none
  confirmed_reservation : ReservationDetails := {}
deriving DecidableEq, Repr

/-- `skills/outputs.py` `AlternativeProposalOutput`. -/
structure AlternativeProposalOutput where
  ai_response : String
  alternative_selected : Bool := false
  accepted_slot_description : Option String := none
  should_end_conversation : Bool := false
deriving DecidableEq, Repr

/-- `skills/outputs.py` `ErrorRecoveryOutput`. -/
structure ErrorRecoveryOutput where
  ai_response : String
  reset_stage : WorkflowStage := .sharePreferences
deriving DecidableEq, Repr

/-- `skills/outputs.py` `SaveReservationOutput`. -/
structure SaveReservationOutput where
  ai_response : String
  follow_up_needed : Bool := false
deriving DecidableEq, Repr

/-! ## State-manager helper functions, from `memory/state_manager.py`. -/

/-- Body of `_get_missing_explicit_confirmations`, abstracted over the
goal reservation's special request (the only part of the state the
source function reads): `date`/`time`/`party_size` are missing when the
confirmed reservation lacks them; `special_requests` is additionally
demanded when the goal actually requested one (Python truthiness) and
the confirmed value is blank after stripping. -/
def missing_explicit_of (requested_special : Option String)
    (confirmed : ReservationDetails) : List String :=
  let missing : List String :=
    (if confirmed.date = none then ["date"] else []) ++
    (if confirmed.time = none then ["time"] else []) ++
    (if confirmed.party_size = none then ["party_size"] else [])
  if optStrTruthy requested_special then
    let special_value := stripStr (confirmed.special_requests.getD "")
    if special_value.isEmpty then missing ++ ["special_requests"] else missing
  else missing

/-- `state_manager.py` `_get_missing_explicit_confirmations`: critical
fields that still need explicit staff confirmation. -/
def get_missing_explicit_confirmations (state : GlobalMemory)
    (confirmed : ReservationDetails) : List String :=
  missing_explicit_of state.working.goal_reservation.special_requests confirmed

/-- `state_manager.py` `_CONTACT_FIELD_PRIORITY`. -/
def CONTACT_FIELD_PRIORITY : List String :=
  ["party_size", "contact_name", "contact_phone", "occasion",
   "special_requests", "date", "time"]

/-- `state_manager.py` `_FIELD_TOPIC_MAP` (as a lookup function; names
outside the map fall back to `none`, matching `dict.get`). -/
def FIELD_TOPIC_MAP : String → Option DiscussionTopic
  | "date" => some .confirmingDate
  | "time" => some .confirmingTime
  | "party_size" => some .confirmingPartySize
  | "special_requests" => some .confirmingSpecialRequests
  | "contact_name" => some .confirmingContactDetails
  | "contact_phone" => some .confirmingContactDetails
  | "occasion" => some .confirmingOccasion
  | _ => none

/-- `state_manager.py` `_get_next_missing_field`: first unconfirmed field
in priority order. -/
def get_next_missing_field (workflow : WorkflowMemory) : Option String :=
  CONTACT_FIELD_PRIORITY.find? (fun f => !workflow.confirmed_fields.get f)

/-- `state_manager.py` `_topic_from_field` (falsy field name, i.e. `None`
or `""`, falls back to the contact-details topic, as does a name outside
the map via `dict.get`'s default). -/
def topic_from_field (field_name : Option String) : DiscussionTopic :=
  if !optStrTruthy field_name then .confirmingContactDetails
  else (FIELD_TOPIC_MAP (field_name.getD "")).getD .confirmingContactDetails

/-- `state_manager.py` `_sync_topic_with_stage`: recompute
`current_topic` from `blocking_issue`, `stage` and (for PROVIDE_CONTACT)
the supplied next-missing field. The Python default argument
`next_missing_field=None` is passed explicitly at every call site. -/
def sync_topic_with_stage (w : WorkflowMemory) (next_missing_field : Option String) :
    WorkflowMemory :=
  if optStrTruthy w.blocking_issue then
    { w with current_topic := .errorRecovery }
  else if w.stage = .intro then
    { w with current_topic := .greeting }
  else if w.stage = .sharePreferences ∨ w.stage = .awaitAvailability ∨
      w.stage = .reviewAlternatives then
    { w with current_topic := .confirmingAvailability }
  else if w.stage = .provideContact then
    { w with current_topic := topic_from_field next_missing_field }
  else if w.stage = .menuDiscussion then
    { w with current_topic := .menuDiscussion }
  else if w.stage = .awaitConfirmation then
    { w with current_topic := .confirmation }
  else if w.stage = .saveData ∨ w.stage = .wrapUp ∨ w.stage = .endStage then
    { w with current_topic := .closing }
  else
    { w with current_topic := .noneTopic }

/-- `state_manager.py` `create_initial_state`: build a fully initialized
memory tree. Constructing the goal `ReservationDetails` goes through
pydantic validation, so the result is fallible. -/
def create_initial_state (semantic_memory : Option SemanticMemory)
    (desired_reservation : Option DesiredReservation) :
    Except String GlobalMemory :=
  let state : GlobalMemory := {}
  let state :=
    match semantic_memory with
    | some sm => { state with semantic := sm }
    | none => state
  let state :=
    match desired_reservation with
    | some d =>
        { state with semantic := { state.semantic with desired_reservation := d } }
    | none => state
  let desired := state.semantic.desired_reservation
  let goal : ReservationDetails :=
    { date := some desired.date
      time := some desired.time
      party_size := some desired.party_size
      occasion := desired.occasion
      special_requests := desired.special_requests
      contact_name := some state.semantic.guest_name
      contact_phone := some state.semantic.guest_phone }
  match goal.validated with
  | Except.error e => Except.error e
  | Except.ok goal =>
      let state := { state with working := { state.working with goal_reservation := goal } }
      Except.ok { state with workflow := sync_topic_with_stage state.workflow none }

/-- `state_manager.py` `record_user_turn`. -/
def record_user_turn (state : GlobalMemory) (message : String) : GlobalMemory :=
  state.append_turn "user" message

/-! ## The transition reducer: one handler per skill output kind. -/

/-- `state_manager.py` `_handle_greeting`. -/
def handle_greeting (state : GlobalMemory) (output : GreetingSkillOutput) :
    GlobalMemory :=
  let state := state.append_turn "agent" output.ai_response
  let w := { state.workflow with stage := WorkflowStage.sharePreferences }
  { state with
    workflow := sync_topic_with_stage w none
    working := { state.working with pending_questions := [] } }

/-- `state_manager.py` `_handle_availability`. -/
def handle_availability (state : GlobalMemory) (output : AvailabilitySkillOutput) :
    GlobalMemory :=
  let state := state.append_turn "agent" output.ai_response
  let w := { state.workflow with
    availability_status := output.availability_status
    selected_slot_note := output.selected_slot_note
    blocking_issue := none }
  let working := { state.working with pending_questions := output.pending_questions }
  if output.special_request_rejected then
    let w := { w with
      stage := WorkflowStage.wrapUp
      blocking_issue := some "special_request_rejected"
      current_topic := DiscussionTopic.confirmingSpecialRequests }
    { state with
      workflow := w
      working := { working with proposed_alternatives := [] } }
  else
    let alts := output.suggested_alternatives.map
      (fun alt => ({ description := alt, accepted := false } : AlternativeOption))
    let working :=
      if !output.suggested_alternatives.isEmpty then
        { working with proposed_alternatives := alts }
      else if output.availability_status = AvailabilityStatus.slotAccepted then
        { working with proposed_alternatives := [] }
      else working
    let w :=
      if output.suggested_alternatives.isEmpty ∧
          output.availability_status = AvailabilityStatus.slotAccepted then
        { w with confirmed_fields :=
            { w.confirmed_fields with date := true, time := true } }
      else w
    let w := { w with stage :=
      match output.availability_status with
      | AvailabilityStatus.slotAccepted => WorkflowStage.provideContact
      | AvailabilityStatus.waitingOnStaff => WorkflowStage.awaitAvailability
      | AvailabilityStatus.alternativesOffered => WorkflowStage.reviewAlternatives
      | AvailabilityStatus.declined => WorkflowStage.reviewAlternatives
      | _ => WorkflowStage.sharePreferences }
    let next_missing :=
      if w.stage = WorkflowStage.provideContact then get_next_missing_field w
      else none
    { state with
      workflow := sync_topic_with_stage w next_missing
      working := working }

/-- `state_manager.py` `_mark_if_present`: a confirmed-field flag becomes
true when the incoming payload carries a value for it, and is left
unchanged otherwise. -/
def mark_if_present {α : Type} (value : Option α) (current : Bool) : Bool :=
  if value.isSome then true else current

/-- `state_manager.py` `_handle_details`. -/
def handle_details (state : GlobalMemory) (output : DetailsCollectionOutput) :
    GlobalMemory :=
  let state := state.append_turn "agent" output.ai_response
  let incoming := output.reservation_details
  let cf := state.workflow.confirmed_fields
  let cf : ConfirmedFields :=
    { date := mark_if_present incoming.date cf.date
      time := mark_if_present incoming.time cf.time
      party_size := mark_if_present incoming.party_size cf.party_size
      contact_name := mark_if_present incoming.contact_name cf.contact_name
      contact_phone := mark_if_present incoming.contact_phone cf.contact_phone
      occasion := mark_if_present incoming.occasion cf.occasion
      special_requests := mark_if_present incoming.special_requests cf.special_requests }
  let w := { state.workflow with confirmed_fields := cf }
  let next_missing := get_next_missing_field w
  if cf.all_required_confirmed then
    if output.needs_menu_dialog then
      let w := { w with stage := WorkflowStage.menuDiscussion }
      { state with workflow := sync_topic_with_stage w none }
    else
      let w := { w with stage := WorkflowStage.awaitConfirmation }
      { state with workflow := sync_topic_with_stage w none }
  else
    let w := { w with stage := WorkflowStage.provideContact }
    { state with workflow := sync_topic_with_stage w next_missing }

/-- `state_manager.py` `_handle_menu`: the stage recommendation in the
result is trusted verbatim. -/
def handle_menu (state : GlobalMemory) (output : MenuDiscussionOutput) :
    GlobalMemory :=
  let state := state.append_turn "agent" output.ai_response
  let w := { state.workflow with stage := output.next_stage }
  { state with
    workflow := sync_topic_with_stage w none
    working := { state.working with menu_preferences := output.menu_preferences } }

/-- The keyword heuristic of `_handle_confirmation`'s clarification
branch: un-confirm whichever of date, time, contact_phone, contact_name
is keyword-matched in the (already lowercased) error text. -/
def unconfirm_keyword_fields (cf : ConfirmedFields) (error_msg : String) :
    ConfirmedFields :=
  let cf := if containsSubstring error_msg "date" then { cf with date := false } else cf
  let cf := if containsSubstring error_msg "time" then { cf with time := false } else cf
  let cf := if containsSubstring error_msg "phone" then { cf with contact_phone := false } else cf
  if containsSubstring error_msg "name" then { cf with contact_name := false } else cf

/-- `state_manager.py` `_handle_confirmation`. -/
def handle_confirmation (state : GlobalMemory) (output : ConfirmationSkillOutput) :
    GlobalMemory :=
  let state := state.append_turn "agent" output.ai_response
  let w := { state.workflow with
    confirmation_status := output.confirmation_status
    blocking_issue :=
      if output.confirmation_status = ConfirmationStatus.pending then
        output.error_message
      else none }
  let w :=
    if optStrTruthy output.booking_reference then
      { w with selected_slot_note := output.booking_reference }
    else w
  let w := { w with missing_explicit_confirmations := [] }
  let working := { state.working with confirmed_reservation := output.confirmed_reservation }
  let state := { state with workflow := w, working := working }
  if output.confirmation_status = ConfirmationStatus.confirmedByStaff then
    let missing_fields := get_missing_explicit_confirmations state output.confirmed_reservation
    if !missing_fields.isEmpty then
      let w := { w with
        confirmation_status := ConfirmationStatus.pending
        missing_explicit_confirmations := missing_fields
        stage := WorkflowStage.awaitConfirmation }
      { state with
        workflow := sync_topic_with_stage w none
        working := { working with pending_questions := [] } }
    else
      let w := { w with
        confirmed_fields := { w.confirmed_fields with
          date := true, time := true, party_size := true,
          contact_name := true, contact_phone := true, special_requests := true }
        stage := WorkflowStage.saveData
        saved_file_path := none }
      { state with
        workflow := sync_topic_with_stage w none
        working := { working with pending_questions := [] } }
  else if output.confirmation_status = ConfirmationStatus.needsClarification then
    let pq : List String :=
      if optStrTruthy output.error_message then [output.error_message.getD ""] else []
    let working := { working with pending_questions := pq }
    let w := { w with stage := WorkflowStage.provideContact, blocking_issue := none }
    let error_msg := lowerStr (output.error_message.getD "")
    let cf := unconfirm_keyword_fields w.confirmed_fields error_msg
    let w := { w with confirmed_fields := cf }
    let topic_missing_field := get_next_missing_field w
    { state with
      workflow := sync_topic_with_stage w topic_missing_field
      working := working }
  else
    let w := { w with stage := WorkflowStage.awaitConfirmation }
    { state with workflow := sync_topic_with_stage w none }

/-- `state_manager.py` `_handle_save_reservation`; `snapshot_result` is
the outcome of the external `save_reservation_snapshot` collaborator
(`ok path`, or `error` when it raises). -/
def handle_save_reservation (snapshot_result : Except String String)
    (state : GlobalMemory) (output : SaveReservationOutput) : GlobalMemory :=
  let state := state.append_turn "agent" output.ai_response
  if output.follow_up_needed then
    let w := { state.workflow with stage := WorkflowStage.awaitConfirmation }
    { state with workflow := sync_topic_with_stage w none }
  else
    let saved_file_path :=
      match snapshot_result with
      | Except.ok p => p
      | Except.error e => "save_failed: " ++ e
    let w := { state.workflow with
      stage := WorkflowStage.wrapUp
      saved_file_path := some saved_file_path }
    { state with workflow := sync_topic_with_stage w none }

/-- `state_manager.py` `_handle_alternative`. -/
def handle_alternative (state : GlobalMemory) (output : AlternativeProposalOutput) :
    GlobalMemory :=
  let state := state.append_turn "agent" output.ai_response
  if output.alternative_selected && optStrTruthy output.accepted_slot_description then
    let w := { state.workflow with
      availability_status := AvailabilityStatus.slotAccepted
      stage := WorkflowStage.provideContact
      selected_slot_note := output.accepted_slot_description
      confirmed_fields :=
        { state.workflow.confirmed_fields with date := true, time := true } }
    let working := { state.working with proposed_alternatives :=
      [{ description := output.accepted_slot_description.getD ""
         notes := some "accepted by guest"
         accepted := true }] }
    let topic_missing_field := get_next_missing_field w
    { state with
      workflow := sync_topic_with_stage w topic_missing_field
      working := working }
  else
    let w := { state.workflow with
      availability_status := AvailabilityStatus.alternativesOffered }
    let w :=
      if output.should_end_conversation then { w with stage := WorkflowStage.endStage }
      else { w with stage := WorkflowStage.awaitAvailability }
    { state with workflow := sync_topic_with_stage w none }

/-- `state_manager.py` `_handle_error_recovery`. -/
def handle_error_recovery (state : GlobalMemory) (output : ErrorRecoveryOutput) :
    GlobalMemory :=
  let state := state.append_turn "agent" output.ai_response
  let w := { state.workflow with
    stage := output.reset_stage
    blocking_issue := none
    confirmation_status := ConfirmationStatus.pending }
  let next_missing :=
    if w.stage = WorkflowStage.provideContact then get_next_missing_field w
    else none
  { state with workflow := sync_topic_with_stage w next_missing }

/-- Tagged union of the per-skill structured outputs; the tag plays the
role of the `skill_name` key into the `_HANDLERS` dispatch table of
`state_manager.py` `apply_skill_output`. -/
inductive SkillResult where
  | greeting (o : GreetingSkillOutput)
  | availability (o : AvailabilitySkillOutput)
  | details (o : DetailsCollectionOutput)
  | menu (o : MenuDiscussionOutput)
  | confirmation (o : ConfirmationSkillOutput)
  | alternative (o : AlternativeProposalOutput)
  | errorRecovery (o : ErrorRecoveryOutput)
  | save (o : SaveReservationOutput)
deriving DecidableEq, Repr

/-- The `SkillName` key under which each output shape is dispatched in
`_HANDLERS`. -/
def SkillResult.skillName : SkillResult → SkillName
  | .greeting _ => .greeting
  | .availability _ => .availability
  | .details _ => .detailsCollection
  | .menu _ => .menuDiscussion
  | .confirmation _ => .confirmation
  | .alternative _ => .alternative
  | .errorRecovery _ => .errorRecovery
  | .save _ => .saveReservation

/-- `state_manager.py` `apply_skill_output`: dispatch the structured
output to its handler (the deep copy of the source is the pure-value
semantics here). -/
def apply_skill_output (snapshot_result : Except String String)
    (state : GlobalMemory) : SkillResult → GlobalMemory
  | .greeting o => handle_greeting state o
  | .availability o => handle_availability state o
  | .details o => handle_details state o
  | .menu o => handle_menu state o
  | .confirmation o => handle_confirmation state o
  | .alternative o => handle_alternative state o
  | .errorRecovery o => handle_error_recovery state o
  | .save o => handle_save_reservation snapshot_result state o

/-! ## Coordinator, from `engine/coordinator.py`. -/

/-- `engine/coordinator.py` `CoordinatorAgent.terminal_stages`. -/
def terminal_stages : List WorkflowStage := [.wrapUp, .endStage]

/-- `engine/coordinator.py` `CoordinatorAgent.select_skill`: the routing
state machine, evaluated in strict priority order with a greeting
fallback. -/
def select_skill (state : GlobalMemory) : Option SkillName :=
  let w := state.workflow
  if w.stage ∈ terminal_stages then none
  else if optStrTruthy w.blocking_issue then some SkillName.errorRecovery
  else if w.stage = WorkflowStage.intro then some SkillName.greeting
  else if w.stage = WorkflowStage.sharePreferences ∨
      w.stage = WorkflowStage.awaitAvailability then some SkillName.availability
  else if w.stage = WorkflowStage.reviewAlternatives then some SkillName.alternative
  else if w.stage = WorkflowStage.provideContact then some SkillName.detailsCollection
  else if w.stage = WorkflowStage.menuDiscussion then some SkillName.menuDiscussion
  else if w.stage = WorkflowStage.awaitConfirmation then
    if w.confirmation_status = ConfirmationStatus.needsClarification then
      some SkillName.detailsCollection
    else some SkillName.confirmation
  else if w.stage = WorkflowStage.saveData then some SkillName.saveReservation
  else some SkillName.greeting

/-- Position of each stage in the declared workflow ordering of
`shared/enums.py` (used to express "the stage moves backward"). -/
def stage_index : WorkflowStage → Nat
  | .intro => 0
  | .sharePreferences => 1
  | .awaitAvailability => 2
  | .reviewAlternatives => 3
  | .provideContact => 4
  | .menuDiscussion => 5
  | .awaitConfirmation => 6
  | .saveData => 7
  | .wrapUp => 8
  | .endStage => 9

/-- The topic projection dictated by the shared topic-sync rule: the
topic a workflow record should carry, as a pure function of its own
`blocking_issue`, `stage` and first unconfirmed field. -/
def topic_projection (w : WorkflowMemory) : DiscussionTopic :=
  (sync_topic_with_stage w (get_next_missing_field w)).current_topic

/-! ## Shared structural lemmas about the topic-sync routine. -/

/-- `_sync_topic_with_stage` only rewrites `current_topic`; the stage is
untouched. -/
lemma sync_stage_eq (w : WorkflowMemory) (nm : Option String) :
    (sync_topic_with_stage w nm).stage = w.stage := by
  unfold sync_topic_with_stage
  split_ifs <;> rfl

/-- `_sync_topic_with_stage` leaves `blocking_issue` untouched. -/
lemma sync_blocking_eq (w : WorkflowMemory) (nm : Option String) :
    (sync_topic_with_stage w nm).blocking_issue = w.blocking_issue := by
  unfold sync_topic_with_stage
  split_ifs <;> rfl

/-- `_sync_topic_with_stage` leaves `confirmed_fields` untouched. -/
lemma sync_cf_eq (w : WorkflowMemory) (nm : Option String) :
    (sync_topic_with_stage w nm).confirmed_fields = w.confirmed_fields := by
  unfold sync_topic_with_stage
  split_ifs <;> rfl

/-- `_sync_topic_with_stage` leaves `confirmation_status` untouched. -/
lemma sync_status_eq (w : WorkflowMemory) (nm : Option String) :
    (sync_topic_with_stage w nm).confirmation_status = w.confirmation_status := by
  unfold sync_topic_with_stage
  split_ifs <;> rfl

/-- `_sync_topic_with_stage` leaves `missing_explicit_confirmations`
untouched. -/
lemma sync_missing_eq (w : WorkflowMemory) (nm : Option String) :
    (sync_topic_with_stage w nm).missing_explicit_confirmations =
      w.missing_explicit_confirmations := by
  unfold sync_topic_with_stage
  split_ifs <;> rfl

/-- `_get_next_missing_field` reads only the confirmed-fields record. -/
lemma get_next_cf_only (w1 w2 : WorkflowMemory)
    (h : w1.confirmed_fields = w2.confirmed_fields) :
    get_next_missing_field w1 = get_next_missing_field w2 := by
  unfold get_next_missing_field
  rw [h]

/-- The topic computed by the sync routine depends only on
`blocking_issue`, `stage` and the supplied next-missing field. -/
lemma sync_topic_depends (w1 w2 : WorkflowMemory) (nm : Option String)
    (hb : w1.blocking_issue = w2.blocking_issue) (hs : w1.stage = w2.stage) :
    (sync_topic_with_stage w1 nm).current_topic =
      (sync_topic_with_stage w2 nm).current_topic := by
  unfold sync_topic_with_stage
  rw [hb, hs]
  split_ifs <;> rfl

/-- The supplied next-missing field only matters at PROVIDE_CONTACT. -/
lemma sync_topic_nm_provide (w : WorkflowMemory) (nm nm2 : Option String)
    (h : w.stage = WorkflowStage.provideContact → nm = nm2) :
    (sync_topic_with_stage w nm).current_topic =
      (sync_topic_with_stage w nm2).current_topic := by
  unfold sync_topic_with_stage
  by_cases hb : optStrTruthy w.blocking_issue
  · simp [hb]
  · by_cases hp : w.stage = WorkflowStage.provideContact
    · rw [h hp]
    · simp [hb, hp]

/-- A workflow record produced by the sync routine satisfies the topic
projection, provided the next-missing argument was accurate whenever the
stage is PROVIDE_CONTACT. -/
lemma sync_topic_projection (w : WorkflowMemory) (nm : Option String)
    (h : w.stage = WorkflowStage.provideContact → nm = get_next_missing_field w) :
    (sync_topic_with_stage w nm).current_topic =
      topic_projection (sync_topic_with_stage w nm) := by
  unfold topic_projection
  rw [get_next_cf_only (sync_topic_with_stage w nm) w (sync_cf_eq w nm)]
  rw [sync_topic_depends (sync_topic_with_stage w nm) w (get_next_missing_field w)
    (sync_blocking_eq w nm) (sync_stage_eq w nm)]
  exact sync_topic_nm_provide w nm _ h

/-! ## C1 -/

/-- C1: `select_skill` returns no action exactly at the terminal stages
WRAP_UP and END; at every other stage it returns some skill, so routing
is total and never deadlocks. -/
theorem select_skill_none_iff_terminal (s : GlobalMemory) :
    select_skill s = none ↔
      (s.workflow.stage = WorkflowStage.wrapUp ∨
       s.workflow.stage = WorkflowStage.endStage) := by
  unfold select_skill terminal_stages
  by_cases hb : optStrTruthy s.workflow.blocking_issue <;>
    cases hs : s.workflow.stage <;>
      simp [hs, hb] <;> split <;> simp

/-! ## C2 -/

/-- A state whose `blocking_issue` is present but empty, at a
non-terminal stage. -/
def stateBlockEmpty : GlobalMemory :=
  { workflow := { stage := WorkflowStage.awaitConfirmation,
                  blocking_issue := some "" } }

/-- C2 counterexample: with `blocking_issue` set (non-None, here the
empty string) and a non-terminal stage, the coordinator does not return
the error-recovery action — Python truthiness treats `""` as unset, so
routing falls through to the stage dispatch. -/
theorem select_skill_empty_blocking_no_recovery :
    stateBlockEmpty.workflow.blocking_issue ≠ none ∧
    stateBlockEmpty.workflow.stage ≠ WorkflowStage.wrapUp ∧
    stateBlockEmpty.workflow.stage ≠ WorkflowStage.endStage ∧
    select_skill stateBlockEmpty ≠ some SkillName.errorRecovery ∧
    select_skill stateBlockEmpty = some SkillName.confirmation := by
  refine ⟨?_, ?_, ?_, ?_, ?_⟩ <;> decide

/-- C2 (amended): for every state whose `blocking_issue` is a non-empty
string, the coordinator returns the error-recovery action whenever the
stage is non-terminal, and no action when the stage is terminal (the
terminal check takes priority); a present-but-empty `blocking_issue`
does not trigger error recovery. -/
theorem select_skill_blocking_priority (s : GlobalMemory)
    (hb : optStrTruthy s.workflow.blocking_issue = true) :
    (s.workflow.stage ≠ WorkflowStage.wrapUp ∧
        s.workflow.stage ≠ WorkflowStage.endStage →
      select_skill s = some SkillName.errorRecovery) ∧
    (s.workflow.stage = WorkflowStage.wrapUp ∨
        s.workflow.stage = WorkflowStage.endStage →
      select_skill s = none) := by
  unfold select_skill terminal_stages
  cases hs : s.workflow.stage <;> simp [hs, hb]

/-- A blocked state at the details-collection stage. -/
def stateBlocked : GlobalMemory :=
  { workflow := { stage := WorkflowStage.provideContact,
                  blocking_issue := some "overbooked" } }

/-- Witness for the amended C2 at a concrete blocked state. -/
theorem select_skill_blocking_priority_witness :
    select_skill stateBlocked = some SkillName.errorRecovery :=
  (select_skill_blocking_priority stateBlocked (by decide)).1 (by decide)

/-! ## Structural lemmas about `append_turn`. -/

/-- Appending a transcript turn never touches the workflow record. -/
lemma append_turn_workflow (s : GlobalMemory) (sp m : String) :
    (s.append_turn sp m).workflow = s.workflow := by
  unfold GlobalMemory.append_turn
  split_ifs <;> rfl

/-- Appending a transcript turn never touches the goal reservation. -/
lemma append_turn_goal (s : GlobalMemory) (sp m : String) :
    (s.append_turn sp m).working.goal_reservation = s.working.goal_reservation := by
  unfold GlobalMemory.append_turn
  split_ifs <;> rfl

/-- Appending a transcript turn never touches the confirmed reservation. -/
lemma append_turn_confirmed (s : GlobalMemory) (sp m : String) :
    (s.append_turn sp m).working.confirmed_reservation =
      s.working.confirmed_reservation := by
  unfold GlobalMemory.append_turn
  split_ifs <;> rfl

/-! ## C3 -/

/-- A session waiting for confirmation whose `occasion` flag is not yet
confirmed (the default). -/
def stateAwaitConfirm : GlobalMemory :=
  { workflow := { stage := WorkflowStage.awaitConfirmation } }

/-- A CONFIRMED_BY_STAFF result carrying a complete confirmed
reservation (nothing missing: date, time and party size present, and
the goal requested no special treatment). -/
def outConfirmed : ConfirmationSkillOutput :=
  { ai_response := "Confirmed"
    confirmation_status := ConfirmationStatus.confirmedByStaff
    confirmed_reservation :=
      { date := some 2, time := some 1140, party_size := some 4 } }

/-- C3 counterexample: on a CONFIRMED_BY_STAFF result with nothing
missing, the handler advances to SAVE_DATA but sets only 6 of the 7
confirmed-field booleans — the `occasion` flag stays false, refuting
"sets all 7 confirmed-field booleans to true". -/
theorem handle_confirmation_occasion_unmarked :
    get_missing_explicit_confirmations stateAwaitConfirm
        outConfirmed.confirmed_reservation = [] ∧
    (handle_confirmation stateAwaitConfirm outConfirmed).workflow.stage =
      WorkflowStage.saveData ∧
    (handle_confirmation stateAwaitConfirm outConfirmed).workflow.confirmed_fields.occasion
      = false := by
  refine ⟨?_, ?_, ?_⟩ <;> decide

/-- C3 (amended): when the confirmation-check handler receives a
CONFIRMED_BY_STAFF result and the missing-field check finds nothing
missing, it sets the 6 confirmed-field booleans date, time, party_size,
special_requests, contact_name and contact_phone to true, leaves the
`occasion` flag unchanged, and advances the stage to SAVE_DATA. -/
theorem handle_confirmation_confirmed_complete (s : GlobalMemory)
    (o : ConfirmationSkillOutput)
    (hst : o.confirmation_status = ConfirmationStatus.confirmedByStaff)
    (hm : get_missing_explicit_confirmations s o.confirmed_reservation = []) :
    (handle_confirmation s o).workflow.confirmed_fields =
      { s.workflow.confirmed_fields with
        date := true, time := true, party_size := true,
        contact_name := true, contact_phone := true, special_requests := true } ∧
    (handle_confirmation s o).workflow.stage = WorkflowStage.saveData := by
  unfold handle_confirmation
  simp only [get_missing_explicit_confirmations] at hm
  simp [hst, get_missing_explicit_confirmations, append_turn_goal,
    append_turn_workflow, hm, sync_cf_eq, sync_stage_eq, apply_ite]

/-- Witness for the amended C3 at a concrete confirmed session. -/
theorem handle_confirmation_confirmed_complete_witness :
    (handle_confirmation stateAwaitConfirm outConfirmed).workflow.confirmed_fields =
      { date := true, time := true, party_size := true, occasion := false,
        special_requests := true, contact_name := true, contact_phone := true } ∧
    (handle_confirmation stateAwaitConfirm outConfirmed).workflow.stage =
      WorkflowStage.saveData :=
  handle_confirmation_confirmed_complete stateAwaitConfirm outConfirmed rfl (by decide)

/-! ## C4 -/

/-- C4: when the confirmation-check handler receives a CONFIRMED_BY_STAFF
result whose confirmed reservation still misses critical fields, it sets
`confirmation_status` back to PENDING, keeps the stage at
AWAIT_CONFIRMATION, and records exactly the missing fields in
`missing_explicit_confirmations`. -/
theorem handle_confirmation_downgrade_on_missing (s : GlobalMemory)
    (o : ConfirmationSkillOutput)
    (hst : o.confirmation_status = ConfirmationStatus.confirmedByStaff)
    (hm : get_missing_explicit_confirmations s o.confirmed_reservation ≠ []) :
    (handle_confirmation s o).workflow.confirmation_status =
      ConfirmationStatus.pending ∧
    (handle_confirmation s o).workflow.stage = WorkflowStage.awaitConfirmation ∧
    (handle_confirmation s o).workflow.missing_explicit_confirmations =
      get_missing_explicit_confirmations s o.confirmed_reservation := by
  unfold handle_confirmation
  simp only [get_missing_explicit_confirmations] at hm ⊢
  simp [hst, append_turn_goal, append_turn_workflow, hm, sync_status_eq,
    sync_stage_eq, sync_missing_eq, apply_ite, List.isEmpty_iff]

/-- Scenario C: the staff claim a confirmation, but the confirmed
reservation they echo back lacks the date. -/
def outConfirmedNoDate : ConfirmationSkillOutput :=
  { ai_response := "Confirmed"
    confirmation_status := ConfirmationStatus.confirmedByStaff
    confirmed_reservation := { time := some 1140, party_size := some 4 } }

/-- Witness for C4: with the date missing, the status is downgraded to
PENDING, the stage stays AWAIT_CONFIRMATION, and the missing list is
exactly `["date"]`. -/
theorem handle_confirmation_downgrade_on_missing_witness :
    (handle_confirmation stateAwaitConfirm outConfirmedNoDate).workflow.confirmation_status
      = ConfirmationStatus.pending ∧
    (handle_confirmation stateAwaitConfirm outConfirmedNoDate).workflow.stage =
      WorkflowStage.awaitConfirmation ∧
    (handle_confirmation stateAwaitConfirm outConfirmedNoDate).workflow.missing_explicit_confirmations
      = ["date"] := by
  have h := handle_confirmation_downgrade_on_missing stateAwaitConfirm
    outConfirmedNoDate rfl (by decide)
  exact ⟨h.1, h.2.1, h.2.2.trans (by decide)⟩

/-! ## C10 -/

/-- C10: whatever the confirmation status of the result, the scratchpad's
confirmed reservation is replaced wholesale by the result's
`confirmed_reservation`, and `missing_explicit_confirmations` carries no
data from earlier turns: it ends up freshly computed on the
CONFIRMED_BY_STAFF path and empty on every other path — both final
values are independent of the previous scratchpad contents. -/
theorem handle_confirmation_replaces_scratchpad (s : GlobalMemory)
    (o : ConfirmationSkillOutput) :
    (handle_confirmation s o).working.confirmed_reservation =
      o.confirmed_reservation ∧
    (handle_confirmation s o).workflow.missing_explicit_confirmations =
      (if o.confirmation_status = ConfirmationStatus.confirmedByStaff
       then get_missing_explicit_confirmations s o.confirmed_reservation
       else []) := by
  unfold handle_confirmation
  by_cases hst : o.confirmation_status = ConfirmationStatus.confirmedByStaff
  · by_cases hm : get_missing_explicit_confirmations s o.confirmed_reservation = []
    · simp only [get_missing_explicit_confirmations] at hm ⊢
      simp [hst, hm, append_turn_goal, append_turn_confirmed, sync_missing_eq,
        apply_ite, List.isEmpty_iff]
    · simp only [get_missing_explicit_confirmations] at hm ⊢
      simp [hst, hm, append_turn_goal, append_turn_confirmed, sync_missing_eq,
        apply_ite, List.isEmpty_iff]
  · by_cases hnc : o.confirmation_status = ConfirmationStatus.needsClarification
    · split_ifs <;> simp_all [append_turn_confirmed, sync_missing_eq]
    · split_ifs <;> simp_all [append_turn_confirmed, sync_missing_eq]

/-! ## C8 -/

/-- The keyword heuristic un-confirms the date flag exactly when "date"
occurs in the error text. -/
lemma unconfirm_date (cf : ConfirmedFields) (msg : String) :
    (unconfirm_keyword_fields cf msg).date =
      if containsSubstring msg "date" then false else cf.date := by
  unfold unconfirm_keyword_fields
  split_ifs <;> rfl

/-- The keyword heuristic un-confirms the time flag exactly when "time"
occurs in the error text. -/
lemma unconfirm_time (cf : ConfirmedFields) (msg : String) :
    (unconfirm_keyword_fields cf msg).time =
      if containsSubstring msg "time" then false else cf.time := by
  unfold unconfirm_keyword_fields
  split_ifs <;> rfl

/-- The keyword heuristic un-confirms the contact-phone flag exactly when
"phone" occurs in the error text. -/
lemma unconfirm_phone (cf : ConfirmedFields) (msg : String) :
    (unconfirm_keyword_fields cf msg).contact_phone =
      if containsSubstring msg "phone" then false else cf.contact_phone := by
  unfold unconfirm_keyword_fields
  split_ifs <;> rfl

/-- The keyword heuristic un-confirms the contact-name flag exactly when
"name" occurs in the error text. -/
lemma unconfirm_name (cf : ConfirmedFields) (msg : String) :
    (unconfirm_keyword_fields cf msg).contact_name =
      if containsSubstring msg "name" then false else cf.contact_name := by
  unfold unconfirm_keyword_fields
  split_ifs <;> rfl

/-- The keyword heuristic never touches party_size, occasion or
special_requests. -/
lemma unconfirm_untouched (cf : ConfirmedFields) (msg : String) :
    (unconfirm_keyword_fields cf msg).party_size = cf.party_size ∧
    (unconfirm_keyword_fields cf msg).occasion = cf.occasion ∧
    (unconfirm_keyword_fields cf msg).special_requests = cf.special_requests := by
  unfold unconfirm_keyword_fields
  split_ifs <;> exact ⟨rfl, rfl, rfl⟩

/-- C8: on a NEEDS_CLARIFICATION result the handler returns the stage to
PROVIDE_CONTACT, makes the result's error message the sole pending
question (empty when there is no message), un-confirms exactly those of
date, time, contact_phone, contact_name whose keyword occurs as a
case-insensitive substring of the error text, and leaves the other
confirmed-field flags unchanged. -/
theorem handle_confirmation_clarification (s : GlobalMemory)
    (o : ConfirmationSkillOutput)
    (hst : o.confirmation_status = ConfirmationStatus.needsClarification) :
    (handle_confirmation s o).workflow.stage = WorkflowStage.provideContact ∧
    (handle_confirmation s o).working.pending_questions =
      (if optStrTruthy o.error_message then [o.error_message.getD ""] else []) ∧
    (handle_confirmation s o).workflow.confirmed_fields.date =
      (if containsSubstring (lowerStr (o.error_message.getD "")) "date" then false
       else s.workflow.confirmed_fields.date) ∧
    (handle_confirmation s o).workflow.confirmed_fields.time =
      (if containsSubstring (lowerStr (o.error_message.getD "")) "time" then false
       else s.workflow.confirmed_fields.time) ∧
    (handle_confirmation s o).workflow.confirmed_fields.contact_phone =
      (if containsSubstring (lowerStr (o.error_message.getD "")) "phone" then false
       else s.workflow.confirmed_fields.contact_phone) ∧
    (handle_confirmation s o).workflow.confirmed_fields.contact_name =
      (if containsSubstring (lowerStr (o.error_message.getD "")) "name" then false
       else s.workflow.confirmed_fields.contact_name) ∧
    (handle_confirmation s o).workflow.confirmed_fields.party_size =
      s.workflow.confirmed_fields.party_size ∧
    (handle_confirmation s o).workflow.confirmed_fields.occasion =
      s.workflow.confirmed_fields.occasion ∧
    (handle_confirmation s o).workflow.confirmed_fields.special_requests =
      s.workflow.confirmed_fields.special_requests := by
  unfold handle_confirmation
  simp [hst, append_turn_workflow, sync_stage_eq, sync_cf_eq, apply_ite,
    unconfirm_date, unconfirm_time, unconfirm_phone, unconfirm_name,
    unconfirm_untouched]

/-- A fully confirmed session awaiting final confirmation. -/
def stateAllConfirmed : GlobalMemory :=
  { workflow := { stage := WorkflowStage.awaitConfirmation
                  confirmed_fields :=
                    { date := true, time := true, party_size := true,
                      occasion := true, special_requests := true,
                      contact_name := true, contact_phone := true } } }

/-- A clarification request mentioning the date. -/
def outClarifyDate : ConfirmationSkillOutput :=
  { ai_response := "They asked which date we meant."
    confirmation_status := ConfirmationStatus.needsClarification
    error_message := some "Which date did you mean?" }

/-- Witness for C8: the date keyword in the error text un-confirms the
date flag, the error message becomes the sole pending question, and the
stage returns to PROVIDE_CONTACT. -/
theorem handle_confirmation_clarification_witness :
    (handle_confirmation stateAllConfirmed outClarifyDate).workflow.stage =
      WorkflowStage.provideContact ∧
    (handle_confirmation stateAllConfirmed outClarifyDate).working.pending_questions =
      ["Which date did you mean?"] ∧
    (handle_confirmation stateAllConfirmed outClarifyDate).workflow.confirmed_fields.date
      = false ∧
    (handle_confirmation stateAllConfirmed outClarifyDate).workflow.confirmed_fields.time
      = true := by
  have h := handle_confirmation_clarification stateAllConfirmed outClarifyDate rfl
  refine ⟨h.1, h.2.1.trans (by decide), h.2.2.1.trans (by decide),
    h.2.2.2.1.trans (by decide)⟩

/-! ## C7 -/

/-- `mark_if_present` is Boolean disjunction of payload presence with the
previous flag. -/
lemma mark_if_present_eq {α : Type} (v : Option α) (c : Bool) :
    mark_if_present v c = (v.isSome || c) := by
  cases v <;> simp [mark_if_present]

/-- A details-collection state whose Goal Facts carry the guest's contact
name and phone. -/
def stateDetails : GlobalMemory :=
  { semantic := { guest_name := "Sarah Mitchell", guest_phone := "+1 555 0100" }
    workflow := { stage := WorkflowStage.provideContact }
    working := { goal_reservation :=
      { contact_name := some "Sarah Mitchell"
        contact_phone := some "+1 555 0100" } } }

/-- A details-collection result that carries only the party size and
omits the contact fields. -/
def outPartyOnly : DetailsCollectionOutput :=
  { ai_response := "A table for two, please."
    reservation_details := { party_size := some 2 } }

/-- C7 counterexample: the payload omits contact_name and contact_phone
even though Goal Facts carry them, and the handler leaves those flags
unconfirmed — no defaulting to Goal Facts happens. -/
theorem handle_details_no_contact_default :
    stateDetails.working.goal_reservation.contact_name = some "Sarah Mitchell" ∧
    outPartyOnly.reservation_details.contact_name = none ∧
    outPartyOnly.reservation_details.contact_phone = none ∧
    (handle_details stateDetails outPartyOnly).workflow.confirmed_fields.party_size
      = true ∧
    (handle_details stateDetails outPartyOnly).workflow.confirmed_fields.contact_name
      = false ∧
    (handle_details stateDetails outPartyOnly).workflow.confirmed_fields.contact_phone
      = false := by
  refine ⟨?_, ?_, ?_, ?_, ?_, ?_⟩ <;> decide

/-- C7 (amended): each negotiable field whose value is present in the
payload is marked confirmed, and every omitted field — contact_name and
contact_phone included — keeps its previous flag unchanged; the handler
never defaults contact fields from Goal Facts. -/
theorem handle_details_marks_exactly_present (s : GlobalMemory)
    (o : DetailsCollectionOutput) :
    (handle_details s o).workflow.confirmed_fields.date =
      (o.reservation_details.date.isSome || s.workflow.confirmed_fields.date) ∧
    (handle_details s o).workflow.confirmed_fields.time =
      (o.reservation_details.time.isSome || s.workflow.confirmed_fields.time) ∧
    (handle_details s o).workflow.confirmed_fields.party_size =
      (o.reservation_details.party_size.isSome ||
        s.workflow.confirmed_fields.party_size) ∧
    (handle_details s o).workflow.confirmed_fields.contact_name =
      (o.reservation_details.contact_name.isSome ||
        s.workflow.confirmed_fields.contact_name) ∧
    (handle_details s o).workflow.confirmed_fields.contact_phone =
      (o.reservation_details.contact_phone.isSome ||
        s.workflow.confirmed_fields.contact_phone) ∧
    (handle_details s o).workflow.confirmed_fields.occasion =
      (o.reservation_details.occasion.isSome ||
        s.workflow.confirmed_fields.occasion) ∧
    (handle_details s o).workflow.confirmed_fields.special_requests =
      (o.reservation_details.special_requests.isSome ||
        s.workflow.confirmed_fields.special_requests) := by
  unfold handle_details
  simp [apply_ite, append_turn_workflow, sync_cf_eq, mark_if_present_eq]

/-! ## C9 -/

/-- Whether an `Except` computation succeeded. -/
def isOkE {ε α : Type} : Except ε α → Bool
  | Except.ok _ => true
  | Except.error _ => false

/-- An over-large party request: `DesiredReservation` itself accepts any
integer party size. -/
def desiredSeventeen : DesiredReservation := { party_size := 17 }

/-- C9 counterexample: `create_initial_state` raises a validation error
for a caller-supplied party size of 17 — the goal `ReservationDetails`
model enforces the 1–16 bound at construction, so construction is not
failure-free for every `DesiredReservation`. -/
theorem create_initial_state_rejects_large_party :
    isOkE (create_initial_state none (some desiredSeventeen)) = false := by
  decide

/-- The desired reservation that `create_initial_state` effectively uses:
the explicit argument, else the one in the supplied semantic memory, else
the defaults. -/
def effective_desired (semantic_memory : Option SemanticMemory)
    (desired_reservation : Option DesiredReservation) : DesiredReservation :=
  match desired_reservation with
  | some d => d
  | none =>
      match semantic_memory with
      | some sm => sm.desired_reservation
      | none => {}

/-- C9 (amended): `create_initial_state` returns an initialized state
without a validation error exactly for inputs whose effective party size
lies in the model's 1–16 bound; outside that range the goal
`ReservationDetails` construction fails. -/
theorem create_initial_state_ok_in_range (sm : Option SemanticMemory)
    (d : Option DesiredReservation)
    (h1 : 1 ≤ (effective_desired sm d).party_size)
    (h2 : (effective_desired sm d).party_size ≤ 16) :
    isOkE (create_initial_state sm d) = true := by
  unfold effective_desired at h1 h2
  unfold create_initial_state
  cases d <;> cases sm <;>
    simp_all [ReservationDetails.validated, isOkE]

/-- Witness for the amended C9: the default session (party of two)
initializes successfully. -/
theorem create_initial_state_ok_in_range_witness :
    isOkE (create_initial_state none none) = true :=
  create_initial_state_ok_in_range none none (by decide) (by decide)

/-! ## C5 -/

/-- An availability result that reports the special request rejected. -/
def outSpecialRejected : AvailabilitySkillOutput :=
  { ai_response := "They cannot accommodate the special request."
    availability_status := AvailabilityStatus.waitingOnStaff
    special_request_rejected := true }

/-- C5 counterexample: on the special-request-rejected path the
availability handler leaves `blocking_issue` set while hand-setting
`current_topic` to the special-requests topic, so the produced state has
a topic different from the shared topic-sync projection (which maps any
blocked state to the error-recovery topic). -/
theorem availability_rejection_topic_mismatch :
    (handle_availability {} outSpecialRejected).workflow.blocking_issue =
      some "special_request_rejected" ∧
    (handle_availability {} outSpecialRejected).workflow.current_topic =
      DiscussionTopic.confirmingSpecialRequests ∧
    topic_projection (handle_availability {} outSpecialRejected).workflow =
      DiscussionTopic.errorRecovery ∧
    (handle_availability {} outSpecialRejected).workflow.current_topic ≠
      topic_projection (handle_availability {} outSpecialRejected).workflow := by
  refine ⟨?_, ?_, ?_, ?_⟩ <;> decide

/-- Whether the result takes the special-request-rejected dead-end of the
availability handler. -/
def SkillResult.rejectsSpecial : SkillResult → Bool
  | SkillResult.availability o => o.special_request_rejected
  | _ => false

/-- Whether the result steers the menu handler verbatim to
PROVIDE_CONTACT — the one stage whose topic depends on the
next-missing-field input, which the menu handler never computes. -/
def SkillResult.menuToContact : SkillResult → Bool
  | SkillResult.menu o => decide (o.next_stage = WorkflowStage.provideContact)
  | _ => false

/-- C5 (amended): after every reducer handler — except the availability
handler's special-request-rejected dead-end and the menu handler when
its result names PROVIDE_CONTACT verbatim — `current_topic` equals the
shared topic projection of (blocking_issue, stage,
first-unconfirmed-field) of the produced state. -/
theorem reducer_topic_is_projection (snap : Except String String)
    (s : GlobalMemory) (r : SkillResult)
    (h1 : r.rejectsSpecial = false)
    (h2 : r.menuToContact = false) :
    (apply_skill_output snap s r).workflow.current_topic =
      topic_projection (apply_skill_output snap s r).workflow := by
  cases r with
  | greeting o =>
      simp only [apply_skill_output, handle_greeting]
      exact sync_topic_projection _ none (fun h => absurd h (by simp))
  | availability o =>
      simp only [SkillResult.rejectsSpecial] at h1
      simp only [apply_skill_output, handle_availability, h1, Bool.false_eq_true,
        if_false]
      exact sync_topic_projection _ _ (fun h => by rw [if_pos h])
  | details o =>
      simp only [apply_skill_output, handle_details]
      split_ifs
      · exact sync_topic_projection _ none (fun h => absurd h (by simp))
      · exact sync_topic_projection _ none (fun h => absurd h (by simp))
      · exact sync_topic_projection _ _ (fun _ => get_next_cf_only _ _ rfl)
  | menu o =>
      simp only [SkillResult.menuToContact, decide_eq_false_iff_not] at h2
      simp only [apply_skill_output, handle_menu]
      exact sync_topic_projection _ none (fun h => absurd (by simpa using h) h2)
  | confirmation o =>
      by_cases hcs : o.confirmation_status = ConfirmationStatus.confirmedByStaff
      · simp only [apply_skill_output, handle_confirmation, hcs, reduceCtorEq,
          if_true, if_false, ite_true, ite_false]
        split_ifs <;>
          exact sync_topic_projection _ none (fun h => absurd h (by simp))
      · by_cases hnc : o.confirmation_status = ConfirmationStatus.needsClarification
        · simp only [apply_skill_output, handle_confirmation, hnc, hcs,
            reduceCtorEq, if_true, if_false, ite_true, ite_false]
          split_ifs <;> exact sync_topic_projection _ _ (fun _ => rfl)
        · simp only [apply_skill_output, handle_confirmation, hcs, hnc,
            if_false, ite_false]
          split_ifs <;>
            exact sync_topic_projection _ none (fun h => absurd h (by simp))
  | alternative o =>
      simp only [apply_skill_output, handle_alternative]
      split_ifs
      · exact sync_topic_projection _ _ (fun _ => rfl)
      · exact sync_topic_projection _ none (fun h => absurd h (by simp))
      · exact sync_topic_projection _ none (fun h => absurd h (by simp))
  | errorRecovery o =>
      simp only [apply_skill_output, handle_error_recovery]
      exact sync_topic_projection _ _ (fun h => by rw [if_pos h])
  | save o =>
      simp only [apply_skill_output, handle_save_reservation]
      split_ifs
      · exact sync_topic_projection _ none (fun h => absurd h (by simp))
      · exact sync_topic_projection _ none (fun h => absurd h (by simp))

/-- Witness for the amended C5: the greeting handler on a fresh session
leaves the topic equal to its projection. -/
theorem reducer_topic_is_projection_witness :
    (apply_skill_output (Except.ok "saved") {}
        (SkillResult.greeting { ai_response := "Hello" })).workflow.current_topic =
      topic_projection (apply_skill_output (Except.ok "saved") {}
        (SkillResult.greeting { ai_response := "Hello" })).workflow :=
  reducer_topic_is_projection (Except.ok "saved") {}
    (SkillResult.greeting { ai_response := "Hello" }) rfl rfl

/-! ## C6 -/

/-- The greeting handler always lands on SHARE_PREFERENCES. -/
lemma handle_greeting_stage (s : GlobalMemory) (o : GreetingSkillOutput) :
    (handle_greeting s o).workflow.stage = WorkflowStage.sharePreferences := by
  unfold handle_greeting
  simp [sync_stage_eq]

/-- The availability handler lands on one of five stages. -/
lemma handle_availability_stage (s : GlobalMemory) (o : AvailabilitySkillOutput) :
    (handle_availability s o).workflow.stage = WorkflowStage.wrapUp ∨
    (handle_availability s o).workflow.stage = WorkflowStage.provideContact ∨
    (handle_availability s o).workflow.stage = WorkflowStage.awaitAvailability ∨
    (handle_availability s o).workflow.stage = WorkflowStage.reviewAlternatives ∨
    (handle_availability s o).workflow.stage = WorkflowStage.sharePreferences := by
  unfold handle_availability
  split
  · simp [sync_stage_eq]
  · split <;> simp [sync_stage_eq] <;> cases o.availability_status <;> simp

/-- The details-collection handler lands on one of three stages. -/
lemma handle_details_stage (s : GlobalMemory) (o : DetailsCollectionOutput) :
    (handle_details s o).workflow.stage = WorkflowStage.provideContact ∨
    (handle_details s o).workflow.stage = WorkflowStage.menuDiscussion ∨
    (handle_details s o).workflow.stage = WorkflowStage.awaitConfirmation := by
  unfold handle_details
  simp only [apply_ite, sync_stage_eq]
  split
  · split <;> simp
  · simp

/-- The confirmation handler lands on one of three stages. -/
lemma handle_confirmation_stage (s : GlobalMemory) (o : ConfirmationSkillOutput) :
    (handle_confirmation s o).workflow.stage = WorkflowStage.provideContact ∨
    (handle_confirmation s o).workflow.stage = WorkflowStage.awaitConfirmation ∨
    (handle_confirmation s o).workflow.stage = WorkflowStage.saveData := by
  by_cases hcs : o.confirmation_status = ConfirmationStatus.confirmedByStaff
  · simp only [handle_confirmation, hcs, reduceCtorEq, if_true, if_false,
      ite_true, ite_false]
    split_ifs <;> simp [sync_stage_eq]
  · by_cases hnc : o.confirmation_status = ConfirmationStatus.needsClarification
    · simp only [handle_confirmation, hcs, hnc, reduceCtorEq, if_true, if_false,
        ite_true, ite_false]
      split_ifs <;> simp [sync_stage_eq]
    · simp only [handle_confirmation, hcs, hnc, if_false, ite_false]
      split_ifs <;> simp [sync_stage_eq]

/-- The alternative handler lands on one of three stages. -/
lemma handle_alternative_stage (s : GlobalMemory) (o : AlternativeProposalOutput) :
    (handle_alternative s o).workflow.stage = WorkflowStage.provideContact ∨
    (handle_alternative s o).workflow.stage = WorkflowStage.endStage ∨
    (handle_alternative s o).workflow.stage = WorkflowStage.awaitAvailability := by
  unfold handle_alternative
  split
  · simp [sync_stage_eq]
  · split <;> simp [sync_stage_eq]

/-- The save handler lands on WRAP_UP, or back on AWAIT_CONFIRMATION when
follow-up is needed. -/
lemma handle_save_stage (snap : Except String String) (s : GlobalMemory)
    (o : SaveReservationOutput) :
    (handle_save_reservation snap s o).workflow.stage =
      WorkflowStage.awaitConfirmation ∨
    (handle_save_reservation snap s o).workflow.stage = WorkflowStage.wrapUp := by
  unfold handle_save_reservation
  split <;> simp [sync_stage_eq]

/-- Inversion of the coordinator: which stages can select each skill. -/
lemma select_skill_stage_inv (s : GlobalMemory) (k : SkillName)
    (h : select_skill s = some k) :
    (k = SkillName.greeting → s.workflow.stage = WorkflowStage.intro) ∧
    (k = SkillName.availability →
      s.workflow.stage = WorkflowStage.sharePreferences ∨
      s.workflow.stage = WorkflowStage.awaitAvailability) ∧
    (k = SkillName.alternative →
      s.workflow.stage = WorkflowStage.reviewAlternatives) ∧
    (k = SkillName.detailsCollection →
      s.workflow.stage = WorkflowStage.provideContact ∨
      s.workflow.stage = WorkflowStage.awaitConfirmation) ∧
    (k = SkillName.menuDiscussion →
      s.workflow.stage = WorkflowStage.menuDiscussion) ∧
    (k = SkillName.confirmation →
      s.workflow.stage = WorkflowStage.awaitConfirmation) ∧
    (k = SkillName.saveReservation → s.workflow.stage = WorkflowStage.saveData) := by
  unfold select_skill terminal_stages at h
  by_cases hb : optStrTruthy s.workflow.blocking_issue <;>
    cases hs : s.workflow.stage <;>
      simp [hb, hs] at h <;>
        first
          | (subst h; decide)
          | (split at h <;> (simp at h; subst h; decide))

/-- A session that has reached the save step. -/
def stateSave : GlobalMemory :=
  { workflow := { stage := WorkflowStage.saveData } }

/-- A save result demanding a follow-up with the staff. -/
def outSaveFollowUp : SaveReservationOutput :=
  { ai_response := "They still need to call us back.", follow_up_needed := true }

/-- C6 counterexample: from SAVE_DATA the coordinator selects the save
action, and a follow-up result moves the stage backward to
AWAIT_CONFIRMATION — a regression that is neither of the two designed
backtracks (AWAIT_CONFIRMATION to PROVIDE_CONTACT, and the
REVIEW_ALTERNATIVES/AWAIT_AVAILABILITY cycle). -/
theorem save_follow_up_regression :
    select_skill stateSave = some SkillName.saveReservation ∧
    (handle_save_reservation (Except.ok "path") stateSave outSaveFollowUp).workflow.stage
      = WorkflowStage.awaitConfirmation ∧
    stage_index WorkflowStage.awaitConfirmation <
      stage_index WorkflowStage.saveData ∧
    stateSave.workflow.stage ≠ WorkflowStage.awaitConfirmation ∧
    stateSave.workflow.stage ≠ WorkflowStage.reviewAlternatives ∧
    stateSave.workflow.stage ≠ WorkflowStage.awaitAvailability := by
  refine ⟨?_, ?_, ?_, ?_, ?_, ?_⟩ <;> decide

/-- C6 (amended): across every coordinator-selected reducer transition,
the stage moves backward in the stage ordering only via:
AWAIT_CONFIRMATION to PROVIDE_CONTACT or MENU_DISCUSSION (the
clarification backtrack), REVIEW_ALTERNATIVES to AWAIT_AVAILABILITY
(alternatives cycling), AWAIT_AVAILABILITY to SHARE_PREFERENCES
(availability still unknown), SAVE_DATA to AWAIT_CONFIRMATION (save
follow-up), or a reset performed by the error-recovery or
menu-discussion handlers, which may target any stage named in their
result. -/
theorem stage_regressions_classified (snap : Except String String)
    (s : GlobalMemory) (r : SkillResult)
    (hsel : select_skill s = some r.skillName)
    (hlt : stage_index (apply_skill_output snap s r).workflow.stage <
      stage_index s.workflow.stage) :
    (s.workflow.stage = WorkflowStage.awaitConfirmation ∧
      ((apply_skill_output snap s r).workflow.stage =
          WorkflowStage.provideContact ∨
       (apply_skill_output snap s r).workflow.stage =
          WorkflowStage.menuDiscussion)) ∨
    (s.workflow.stage = WorkflowStage.reviewAlternatives ∧
      (apply_skill_output snap s r).workflow.stage =
        WorkflowStage.awaitAvailability) ∨
    (s.workflow.stage = WorkflowStage.awaitAvailability ∧
      (apply_skill_output snap s r).workflow.stage =
        WorkflowStage.sharePreferences) ∨
    (s.workflow.stage = WorkflowStage.saveData ∧
      (apply_skill_output snap s r).workflow.stage =
        WorkflowStage.awaitConfirmation) ∨
    r.skillName = SkillName.errorRecovery ∨
    r.skillName = SkillName.menuDiscussion := by
  have hinv := select_skill_stage_inv s r.skillName hsel
  cases r with
  | errorRecovery o => exact Or.inr (Or.inr (Or.inr (Or.inr (Or.inl rfl))))
  | menu o => exact Or.inr (Or.inr (Or.inr (Or.inr (Or.inr rfl))))
  | greeting o =>
      exfalso
      have hs := hinv.1 rfl
      simp only [apply_skill_output] at hlt
      rw [handle_greeting_stage, hs] at hlt
      simp [stage_index] at hlt
  | availability o =>
      have hs := hinv.2.1 rfl
      simp only [apply_skill_output] at hlt ⊢
      rcases handle_availability_stage s o with h|h|h|h|h <;>
        rcases hs with hs|hs <;>
          rw [h, hs] at hlt <;>
            simp only [stage_index] at hlt <;>
              first
                | exact absurd hlt (by decide)
                | exact Or.inr (Or.inr (Or.inl ⟨hs, h⟩))
  | details o =>
      have hs := hinv.2.2.2.1 rfl
      simp only [apply_skill_output] at hlt ⊢
      rcases handle_details_stage s o with h|h|h <;>
        rcases hs with hs|hs <;>
          rw [h, hs] at hlt <;>
            simp only [stage_index] at hlt <;>
              first
                | exact absurd hlt (by decide)
                | exact Or.inl ⟨hs, Or.inl h⟩
                | exact Or.inl ⟨hs, Or.inr h⟩
  | confirmation o =>
      have hs := hinv.2.2.2.2.2.1 rfl
      simp only [apply_skill_output] at hlt ⊢
      rcases handle_confirmation_stage s o with h|h|h <;>
        rw [h, hs] at hlt <;>
          simp only [stage_index] at hlt <;>
            first
              | exact absurd hlt (by decide)
              | exact Or.inl ⟨hs, Or.inl h⟩
  | alternative o =>
      have hs := hinv.2.2.1 rfl
      simp only [apply_skill_output] at hlt ⊢
      rcases handle_alternative_stage s o with h|h|h <;>
        rw [h, hs] at hlt <;>
          simp only [stage_index] at hlt <;>
            first
              | exact absurd hlt (by decide)
              | exact Or.inr (Or.inl ⟨hs, h⟩)
  | save o =>
      have hs := hinv.2.2.2.2.2.2 rfl
      simp only [apply_skill_output] at hlt ⊢
      rcases handle_save_stage snap s o with h|h <;>
        rw [h, hs] at hlt <;>
          simp only [stage_index] at hlt <;>
            first
              | exact absurd hlt (by decide)
              | exact Or.inr (Or.inr (Or.inr (Or.inl ⟨hs, h⟩)))

/-- Witness for the amended C6 at the concrete save-follow-up
regression: the classification returns the SAVE_DATA to
AWAIT_CONFIRMATION disjunct. -/
theorem stage_regressions_classified_witness :
    stateSave.workflow.stage = WorkflowStage.saveData ∧
    (apply_skill_output (Except.ok "path") stateSave
        (SkillResult.save outSaveFollowUp)).workflow.stage =
      WorkflowStage.awaitConfirmation := by
  have h := stage_regressions_classified (Except.ok "path") stateSave
    (SkillResult.save outSaveFollowUp) (by decide) (by decide)
  rcases h with ⟨hs, _⟩ | ⟨hs, _⟩ | ⟨hs, _⟩ | ⟨hs, hn⟩ | hk | hk
  · exact absurd hs (by decide)
  · exact absurd hs (by decide)
  · exact absurd hs (by decide)
  · exact ⟨hs.symm ▸ rfl, hn⟩
  · exact absurd hk (by decide)
  · exact absurd hk (by decide)
